import Mathlib

/-!
Verification of the conversion-request pipeline of `jupyterlab-marimo`
(`src/jupyterlab_marimo/handlers.py`): path validation, path resolution,
subprocess invocation with timeout, and result-to-HTTP-response mapping.

Paths follow POSIX conventions (`os.sep = "/"`), matching the server
environment the extension targets. Strings are Lean `String`; the Python
string and `os.path` primitives used by the source are modelled explicitly
below over the underlying character lists.
-/

/-- Python `str.split(os.sep)` with `os.sep = "/"`: splits a character list on
the separator, keeping empty fields. Always returns a nonempty list; the empty
string yields one empty field, as in Python. -/
def pySplitSep : List Char → List (List Char)
  | [] => [[]]
  | c :: rest =>
    if c = '/' then [] :: pySplitSep rest
    else
      match pySplitSep rest with
      | [] => [[c]]
      | h :: t => (c :: h) :: t

/-- Python `s.startswith("-")` on one path component: true exactly when the
component is nonempty and its first character is a dash. -/
def startsWithDash : List Char → Bool
  | [] => false
  | c :: _ => c == '-'

/-- POSIX `os.path.basename`: the part of the path after the last separator,
that is, the last field of the separator split. -/
def pyBasename (p : List Char) : List Char :=
  (pySplitSep p).getLastD []

/-- Embedding of `_validate_path` (handlers.py, lines 16-46). Rejects the
empty path, then a basename starting with a dash, then any path component
starting with a dash; otherwise accepts with no message. -/
def _validate_path (path : String) : Bool × Option String :=
  if path = "" then
    (false, some "Path cannot be empty")
  else if startsWithDash (pyBasename path.data) = true then
    (false, some "File names starting with \x27-\x27 are not allowed")
  else if (pySplitSep path.data).any startsWithDash = true then
    (false, some "Path components starting with \x27-\x27 are not allowed")
  else
    (true, none)

/-- The separator split is never the empty list of fields. -/
theorem pySplitSep_ne_nil : ∀ l : List Char, pySplitSep l ≠ []
  | [] => by simp [pySplitSep]
  | c :: rest => by
    simp only [pySplitSep]
    split
    · simp
    · split
      · simp
      · simp

/-- Helper: the defaulted last element of a nonempty list is a member. -/
theorem getLastD_mem {α : Type} : ∀ (m : List α) (d : α), m ≠ [] → m.getLastD d ∈ m
  | [], _, h => absurd rfl h
  | [a], _, _ => by simp [List.getLastD]
  | a :: b :: bs, _, _ => by
    have ih := getLastD_mem (b :: bs) a (by simp)
    simp only [List.getLastD_cons] at ih ⊢
    exact List.mem_cons_of_mem a ih

/-- The basename is one of the split components. -/
theorem pyBasename_mem (p : List Char) : pyBasename p ∈ pySplitSep p :=
  getLastD_mem (pySplitSep p) [] (pySplitSep_ne_nil p)

/-- Dash-starting basename implies some dash-starting component. -/
theorem basename_dash_subsumed (p : List Char)
    (h : startsWithDash (pyBasename p) = true) :
    (pySplitSep p).any startsWithDash = true :=
  List.any_eq_true.mpr ⟨pyBasename p, pyBasename_mem p, h⟩

/-- C9: `_validate_path` is a total function on strings; it rejects a path
exactly when the path is empty or some component of the separator split begins
with a dash; the basename check is subsumed by the component check; and the
error message is absent exactly on acceptance. -/
theorem c9_validate_path_characterization (path : String) :
    ((_validate_path path).fst = false ↔
      (path = "" ∨ (pySplitSep path.data).any startsWithDash = true)) ∧
    (startsWithDash (pyBasename path.data) = true →
      (pySplitSep path.data).any startsWithDash = true) ∧
    ((_validate_path path).fst = true ↔ (_validate_path path).snd = none) := by
  refine ⟨?_, basename_dash_subsumed path.data, ?_⟩
  · unfold _validate_path
    by_cases h0 : path = ""
    · simp [h0]
    · simp only [h0, if_false]
      by_cases h1 : startsWithDash (pyBasename path.data) = true
      · simp [h1, basename_dash_subsumed path.data h1]
      · simp only [h1, if_false]
        by_cases h2 : (pySplitSep path.data).any startsWithDash = true
        · simp [h2]
        · simp [h0, h1, h2]
  · unfold _validate_path
    by_cases h0 : path = ""
    · simp [h0]
    · simp only [h0, if_false]
      by_cases h1 : startsWithDash (pyBasename path.data) = true
      · simp [h1]
      · simp only [h1, if_false]
        by_cases h2 : (pySplitSep path.data).any startsWithDash = true
        · simp [h2]
        · simp [h2]

/-- Witness for C9 at concrete inputs: a path whose second component starts
with a dash is rejected, and the basename case is covered by the component
check. -/
theorem c9_validate_path_characterization_witness :
    ((_validate_path "a/-b").fst = false ↔
      ("a/-b" = "" ∨ (pySplitSep "a/-b".data).any startsWithDash = true)) ∧
    ((pySplitSep "-x".data).any startsWithDash = true) ∧
    ((_validate_path "ok.ipynb").fst = true ↔ (_validate_path "ok.ipynb").snd = none) :=
  ⟨(c9_validate_path_characterization "a/-b").1,
   (c9_validate_path_characterization "-x").2.1 (by decide),
   (c9_validate_path_characterization "ok.ipynb").2.2⟩

/-- Python `s.startswith("/")` test used by `os.path.join`. -/
def startsWithSlash : List Char → Bool
  | [] => false
  | c :: _ => c == '/'

/-- Python `s.endswith("/")` test used by `os.path.join`. -/
def endsWithSlash (l : List Char) : Bool :=
  match l.getLast? with
  | some c => c == '/'
  | none => false

/-- POSIX `os.path.join` for two arguments: an absolute second argument
discards the first; otherwise the two are joined, inserting a separator
unless the first is empty or already ends with one. -/
def posixJoin (a b : String) : String :=
  if startsWithSlash b.data = true then b
  else if a = "" ∨ endsWithSlash a.data = true then a ++ b
  else a ++ "/" ++ b

/-- Python slice `s[:-6]`: all characters of `s` but the last six (empty when
`s` has at most six characters). -/
def pySliceToMinus6 (s : String) : String :=
  ⟨s.data.take (s.data.length - 6)⟩

/-- Output-path derivation for the `to_marimo` direction (handlers.py line
185): `source_path[:-6] + ".mo.py"`, removing `.ipynb`. -/
def deriveToMarimoOutput (sp : String) : String :=
  pySliceToMinus6 sp ++ ".mo.py"

/-- Output-path derivation for the `from_marimo` direction (handlers.py line
197): `source_path[:-6] + ".ipynb"`, removing `.mo.py`. -/
def deriveFromMarimoOutput (sp : String) : String :=
  pySliceToMinus6 sp ++ ".ipynb"

/-- Python `s.endswith(suffix)`. -/
def pyEndsWith (s suffix : String) : Bool :=
  suffix.data.isSuffixOf s.data

/-- Python `str.strip()` restricted to ASCII whitespace: drop whitespace from
both ends. -/
def pyStrip (s : String) : String :=
  ⟨List.reverse (List.dropWhile Char.isWhitespace
    (List.reverse (List.dropWhile Char.isWhitespace s.data)))⟩

/-- Outcome of one `subprocess.run` call, as observed by the caller: the
process completed with an exit code and captured stderr, or the call raised
`FileNotFoundError`, `subprocess.TimeoutExpired`, or some other exception
whose description is `msg`. -/
inductive ProcOutcome where
  | completed (returncode : Int) (stderr : String)
  | fileNotFound
  | timedOut
  | raised (msg : String)
deriving DecidableEq

/-- Record of one external-process invocation: the argument vector passed to
`subprocess.run` and the timeout (in seconds) it was bounded by. -/
structure SpawnRecord where
  argv : List String
  timeoutSeconds : Nat
deriving DecidableEq

/-- Mapping of one `subprocess.run` outcome to `(success, error_message)` in
`_convert_to_marimo` (handlers.py, lines 60-79): a nonzero exit code yields
the trimmed stderr, or a fallback when stderr is empty, behind a fixed
direction-specific message; each exception arm yields its fixed message. -/
def toMarimoResult : ProcOutcome → Bool × Option String
  | ProcOutcome.completed returncode stderr =>
    if returncode ≠ 0 then
      (false, some ("Conversion failed: " ++
        (if stderr ≠ "" then pyStrip stderr else "Unknown conversion error")))
    else
      (true, none)
  | ProcOutcome.fileNotFound =>
    (false, some "marimo CLI not found. Please ensure marimo is installed.")
  | ProcOutcome.timedOut =>
    (false, some "Conversion timed out after 30 seconds")
  | ProcOutcome.raised msg =>
    (false, some ("Conversion error: " ++ msg))

/-- Mapping of one `subprocess.run` outcome to `(success, error_message)` in
`_convert_from_marimo` (handlers.py, lines 93-112). -/
def fromMarimoResult : ProcOutcome → Bool × Option String
  | ProcOutcome.completed returncode stderr =>
    if returncode ≠ 0 then
      (false, some ("Export failed: " ++
        (if stderr ≠ "" then pyStrip stderr else "Unknown export error")))
    else
      (true, none)
  | ProcOutcome.fileNotFound =>
    (false, some "marimo CLI not found. Please ensure marimo is installed.")
  | ProcOutcome.timedOut =>
    (false, some "Export timed out after 30 seconds")
  | ProcOutcome.raised msg =>
    (false, some ("Export error: " ++ msg))

/-- Embedding of `_convert_to_marimo` (handlers.py, lines 49-79). Runs
`marimo convert <source> -o <output>` under a 30-second timeout and maps the
outcome to `(success, error_message)`; the invocation record is returned
alongside. -/
def _convert_to_marimo (source_path output_path : String)
    (run : List String → Nat → ProcOutcome) :
    (Bool × Option String) × SpawnRecord :=
  (toMarimoResult (run ["marimo", "convert", source_path, "-o", output_path] 30),
   ⟨["marimo", "convert", source_path, "-o", output_path], 30⟩)

/-- Embedding of `_convert_from_marimo` (handlers.py, lines 82-112). Runs
`marimo export ipynb <source> -o <output>` under a 30-second timeout and maps
the outcome to `(success, error_message)`; the invocation record is returned
alongside. -/
def _convert_from_marimo (source_path output_path : String)
    (run : List String → Nat → ProcOutcome) :
    (Bool × Option String) × SpawnRecord :=
  (fromMarimoResult (run ["marimo", "export", "ipynb", source_path, "-o", output_path] 30),
   ⟨["marimo", "export", "ipynb", source_path, "-o", output_path], 30⟩)

/-- Result of `self.get_json_body()` in `ConvertHandler.post`, an operation of
the host server framework (not part of this repository): a parsed JSON object
with the two fields the handler reads, the value `None` when the request has
no body, or a raised `json.JSONDecodeError` for a malformed body. -/
inductive BodyResult where
  | parsed (sourcePath : Option String) (direction : Option String)
  | parsedNone
  | jsonDecodeError
deriving DecidableEq

/-- Ambient collaborators of one request: the root directory obtained from
the contents manager (or the working directory), the `os.path.isfile` oracle,
and the `subprocess.run` oracle taking an argument vector and a timeout. -/
structure Env where
  rootDir : String
  isfile : String → Bool
  run : List String → Nat → ProcOutcome

/-- HTTP response produced by one request, together with the list of external
process invocations performed while handling it. A `status` of 200 is the
framework default when `set_status` is never called. -/
structure HandlerResult where
  status : Nat
  success : Bool
  outputPath : Option String
  error : Option String
  spawns : List SpawnRecord
deriving DecidableEq

/-- Response mapping shared by both directions (handlers.py, lines 201-211):
success yields 200 with the root-relative output path, failure yields 500
with the error message. -/
def mkConvertResponse (output_path : String)
    (r : (Bool × Option String) × SpawnRecord) : HandlerResult :=
  if r.fst.fst = true then
    ⟨200, true, some output_path, none, [r.snd]⟩
  else
    ⟨500, false, none, r.fst.snd, [r.snd]⟩

/-- Embedding of `ConvertHandler.post` (handlers.py, lines 124-218). The
`parsedNone` case models `data.get(...)` raising `AttributeError` on `None`,
which the trailing generic `except Exception` turns into a 500 whose message
is the description of the exception. -/
def ConvertHandler.post (body : BodyResult) (env : Env) : HandlerResult :=
  match body with
  | BodyResult.jsonDecodeError =>
    ⟨400, false, none, some "Invalid JSON body", []⟩
  | BodyResult.parsedNone =>
    ⟨500, false, none, some "\x27NoneType\x27 object has no attribute \x27get\x27", []⟩
  | BodyResult.parsed sourcePath direction =>
    match sourcePath with
    | none => ⟨400, false, none, some "sourcePath is required", []⟩
    | some sp =>
      if sp = "" then
        ⟨400, false, none, some "sourcePath is required", []⟩
      else if ¬(direction = some "to_marimo" ∨ direction = some "from_marimo") then
        ⟨400, false, none,
          some "direction must be \x27to_marimo\x27 or \x27from_marimo\x27", []⟩
      else if (_validate_path sp).fst = false then
        ⟨400, false, none, (_validate_path sp).snd, []⟩
      else if env.isfile (posixJoin env.rootDir sp) = false then
        ⟨400, false, none, some ("Source file not found: " ++ sp), []⟩
      else if direction = some "to_marimo" then
        if pyEndsWith sp ".ipynb" = false then
          ⟨400, false, none,
            some "Source file must be a .ipynb file for to_marimo conversion", []⟩
        else
          mkConvertResponse (deriveToMarimoOutput sp)
            (_convert_to_marimo (posixJoin env.rootDir sp)
              (posixJoin env.rootDir (deriveToMarimoOutput sp)) env.run)
      else
        if pyEndsWith sp ".mo.py" = false then
          ⟨400, false, none,
            some "Source file must be a .mo.py file for from_marimo conversion", []⟩
        else
          mkConvertResponse (deriveFromMarimoOutput sp)
            (_convert_from_marimo (posixJoin env.rootDir sp)
              (posixJoin env.rootDir (deriveFromMarimoOutput sp)) env.run)

/-- Containment of a path under a root directory, read syntactically: the
path is the root itself or extends it past a separator. -/
def containedUnder (root p : String) : Bool :=
  p == root || (root ++ "/").data.isPrefixOf p.data

/-- Slicing off a six-character suffix recovers the stem. -/
theorem pySliceToMinus6_append (X ext : String) (h : ext.data.length = 6) :
    pySliceToMinus6 (X ++ ext) = X := by
  unfold pySliceToMinus6
  rw [String.data_append, List.length_append, h, Nat.add_sub_cancel, List.take_left]

/-- Derivation on a well-formed notebook path swaps `.ipynb` for `.mo.py`. -/
theorem deriveToMarimoOutput_append (X : String) :
    deriveToMarimoOutput (X ++ ".ipynb") = X ++ ".mo.py" := by
  unfold deriveToMarimoOutput
  rw [pySliceToMinus6_append X ".ipynb" rfl]

/-- Derivation on a well-formed script path swaps `.mo.py` for `.ipynb`. -/
theorem deriveFromMarimoOutput_append (X : String) :
    deriveFromMarimoOutput (X ++ ".mo.py") = X ++ ".ipynb" := by
  unfold deriveFromMarimoOutput
  rw [pySliceToMinus6_append X ".mo.py" rfl]

/-- A list is a Boolean prefix of itself followed by anything. -/
theorem isPrefixOf_append_self (l m : List Char) : l.isPrefixOf (l ++ m) = true := by
  induction l with
  | nil => simp [List.isPrefixOf]
  | cons c t ih => simp [List.isPrefixOf, ih]

/-- A string followed by a suffix ends with that suffix. -/
theorem pyEndsWith_append (X ext : String) : pyEndsWith (X ++ ext) ext = true := by
  unfold pyEndsWith
  show ext.data.reverse.isPrefixOf (X ++ ext).data.reverse = true
  rw [String.data_append, List.reverse_append]
  exact isPrefixOf_append_self _ _

/-- An accepted path is nonempty. -/
theorem validate_true_ne_empty (sp : String)
    (hv : (_validate_path sp).fst = true) : sp ≠ "" := by
  intro h
  rw [h] at hv
  exact absurd hv (by decide)

/-- Unfolds `_convert_to_marimo` when the process completes. -/
theorem convert_to_marimo_completed (a b : String)
    (run : List String → Nat → ProcOutcome) (rc : Int) (st : String)
    (h : ∀ argv t, run argv t = ProcOutcome.completed rc st) :
    (_convert_to_marimo a b run).fst =
      (if rc ≠ 0 then
        (false, some ("Conversion failed: " ++
          (if st ≠ "" then pyStrip st else "Unknown conversion error")))
      else (true, none)) := by
  show toMarimoResult (run ["marimo", "convert", a, "-o", b] 30) = _
  rw [h]
  simp only [toMarimoResult]

/-- Unfolds `_convert_from_marimo` when the process completes. -/
theorem convert_from_marimo_completed (a b : String)
    (run : List String → Nat → ProcOutcome) (rc : Int) (st : String)
    (h : ∀ argv t, run argv t = ProcOutcome.completed rc st) :
    (_convert_from_marimo a b run).fst =
      (if rc ≠ 0 then
        (false, some ("Export failed: " ++
          (if st ≠ "" then pyStrip st else "Unknown export error")))
      else (true, none)) := by
  show fromMarimoResult (run ["marimo", "export", "ipynb", a, "-o", b] 30) = _
  rw [h]
  simp only [fromMarimoResult]

/-- Unfolds `_convert_to_marimo` when the call times out. -/
theorem convert_to_marimo_timeout (a b : String)
    (run : List String → Nat → ProcOutcome)
    (h : ∀ argv t, run argv t = ProcOutcome.timedOut) :
    (_convert_to_marimo a b run).fst =
      (false, some "Conversion timed out after 30 seconds") := by
  show toMarimoResult (run ["marimo", "convert", a, "-o", b] 30) = _
  rw [h]
  simp only [toMarimoResult]

/-- Unfolds `_convert_from_marimo` when the call times out. -/
theorem convert_from_marimo_timeout (a b : String)
    (run : List String → Nat → ProcOutcome)
    (h : ∀ argv t, run argv t = ProcOutcome.timedOut) :
    (_convert_from_marimo a b run).fst =
      (false, some "Export timed out after 30 seconds") := by
  show fromMarimoResult (run ["marimo", "export", "ipynb", a, "-o", b] 30) = _
  rw [h]
  simp only [fromMarimoResult]

/-- The invocation record of `_convert_to_marimo` is fixed. -/
theorem convert_to_marimo_snd (a b : String)
    (run : List String → Nat → ProcOutcome) :
    (_convert_to_marimo a b run).snd =
      ⟨["marimo", "convert", a, "-o", b], 30⟩ := rfl

/-- The invocation record of `_convert_from_marimo` is fixed. -/
theorem convert_from_marimo_snd (a b : String)
    (run : List String → Nat → ProcOutcome) :
    (_convert_from_marimo a b run).snd =
      ⟨["marimo", "export", "ipynb", a, "-o", b], 30⟩ := rfl

/-- Response mapping, expressed through the conversion result pair. -/
theorem mkConvertResponse_of_fst (o : String)
    (r : (Bool × Option String) × SpawnRecord) (b : Bool) (e : Option String)
    (h : r.fst = (b, e)) :
    mkConvertResponse o r =
      if b = true then ⟨200, true, some o, none, [r.snd]⟩
      else ⟨500, false, none, e, [r.snd]⟩ := by
  unfold mkConvertResponse
  rw [h]

/-- The response mapping never yields a 400 status. -/
theorem mkConvertResponse_status_ne_400 (o : String)
    (r : (Bool × Option String) × SpawnRecord) :
    (mkConvertResponse o r).status ≠ 400 := by
  unfold mkConvertResponse
  split
  · simp
  · simp

/-- The response mapping records exactly the one invocation performed. -/
theorem mkConvertResponse_spawns (o : String)
    (r : (Bool × Option String) × SpawnRecord) :
    (mkConvertResponse o r).spawns = [r.snd] := by
  unfold mkConvertResponse
  split <;> rfl

/-- Reduction of the handler to the conversion branch in the `to_marimo`
direction, once every guard has passed. -/
theorem post_to_marimo_branch (sp : String) (env : Env)
    (hv : (_validate_path sp).fst = true)
    (hf : env.isfile (posixJoin env.rootDir sp) = true)
    (he : pyEndsWith sp ".ipynb" = true) :
    ConvertHandler.post (BodyResult.parsed (some sp) (some "to_marimo")) env =
      mkConvertResponse (deriveToMarimoOutput sp)
        (_convert_to_marimo (posixJoin env.rootDir sp)
          (posixJoin env.rootDir (deriveToMarimoOutput sp)) env.run) := by
  have hne : sp ≠ "" := validate_true_ne_empty sp hv
  simp [ConvertHandler.post, hne, hv, hf, he]

/-- Reduction of the handler to the conversion branch in the `from_marimo`
direction, once every guard has passed. -/
theorem post_from_marimo_branch (sp : String) (env : Env)
    (hv : (_validate_path sp).fst = true)
    (hf : env.isfile (posixJoin env.rootDir sp) = true)
    (he : pyEndsWith sp ".mo.py" = true) :
    ConvertHandler.post (BodyResult.parsed (some sp) (some "from_marimo")) env =
      mkConvertResponse (deriveFromMarimoOutput sp)
        (_convert_from_marimo (posixJoin env.rootDir sp)
          (posixJoin env.rootDir (deriveFromMarimoOutput sp)) env.run) := by
  have hne : sp ≠ "" := validate_true_ne_empty sp hv
  have hd : ¬((some "from_marimo" : Option String) = some "to_marimo") := by decide
  simp [ConvertHandler.post, hne, hv, hf, he, hd]

/-- Response mapping of a successful conversion result. -/
theorem mkConvertResponse_success (o : String)
    (r : (Bool × Option String) × SpawnRecord) (h : r.fst = (true, none)) :
    mkConvertResponse o r = ⟨200, true, some o, none, [r.snd]⟩ := by
  unfold mkConvertResponse
  rw [h]
  simp

/-- Response mapping of a failed conversion result. -/
theorem mkConvertResponse_failure (o : String)
    (r : (Bool × Option String) × SpawnRecord) (e : Option String)
    (h : r.fst = (false, e)) :
    mkConvertResponse o r = ⟨500, false, none, e, [r.snd]⟩ := by
  unfold mkConvertResponse
  rw [h]
  simp

/-- Shape analysis of one request: either no external process was spawned, or
the response came from the conversion mapping, in which case the status is
not 400 and the single recorded invocation carries the 30-second timeout. -/
theorem post_spawns_cases (body : BodyResult) (env : Env) :
    (ConvertHandler.post body env).spawns = [] ∨
    ((ConvertHandler.post body env).status ≠ 400 ∧
      ∀ s ∈ (ConvertHandler.post body env).spawns, s.timeoutSeconds = 30) := by
  cases body with
  | jsonDecodeError => exact Or.inl rfl
  | parsedNone => exact Or.inl rfl
  | parsed sp? d =>
    cases sp? with
    | none => exact Or.inl rfl
    | some sp =>
      simp only [ConvertHandler.post]
      split
      · exact Or.inl rfl
      · split
        · exact Or.inl rfl
        · split
          · exact Or.inl rfl
          · split
            · exact Or.inl rfl
            · split
              · split
                · exact Or.inl rfl
                · refine Or.inr ⟨mkConvertResponse_status_ne_400 _ _, ?_⟩
                  intro s hs
                  rw [mkConvertResponse_spawns, convert_to_marimo_snd] at hs
                  simp at hs
                  rw [hs]
              · split
                · exact Or.inl rfl
                · refine Or.inr ⟨mkConvertResponse_status_ne_400 _ _, ?_⟩
                  intro s hs
                  rw [mkConvertResponse_spawns, convert_from_marimo_snd] at hs
                  simp at hs
                  rw [hs]

/-- Head preservation: taking a front segment and appending a relative suffix
cannot introduce a leading separator. -/
theorem startsWithSlash_take_append (l e : List Char) (n : Nat)
    (hl : startsWithSlash l = false) (he : startsWithSlash e = false) :
    startsWithSlash (l.take n ++ e) = false := by
  cases l with
  | nil => cases n <;> exact he
  | cons c t =>
    cases n with
    | zero => exact he
    | succ m => exact hl

/-- The derived `to_marimo` output of a relative path is relative. -/
theorem deriveToMarimoOutput_relative (sp : String)
    (hrel : startsWithSlash sp.data = false) :
    startsWithSlash (deriveToMarimoOutput sp).data = false := by
  show startsWithSlash (pySliceToMinus6 sp ++ ".mo.py").data = false
  rw [String.data_append]
  exact startsWithSlash_take_append sp.data ".mo.py".data _ hrel (by decide)

/-- The derived `from_marimo` output of a relative path is relative. -/
theorem deriveFromMarimoOutput_relative (sp : String)
    (hrel : startsWithSlash sp.data = false) :
    startsWithSlash (deriveFromMarimoOutput sp).data = false := by
  show startsWithSlash (pySliceToMinus6 sp ++ ".ipynb").data = false
  rw [String.data_append]
  exact startsWithSlash_take_append sp.data ".ipynb".data _ hrel (by decide)

/-- Joining a well-formed root with a relative path stays under the root. -/
theorem posixJoin_contained (root p : String) (hroot1 : root ≠ "")
    (hroot2 : endsWithSlash root.data = false)
    (hp : startsWithSlash p.data = false) :
    containedUnder root (posixJoin root p) = true := by
  unfold posixJoin
  rw [if_neg (by simp [hp]), if_neg (by simp [hroot1, hroot2])]
  unfold containedUnder
  have hpre : (root ++ "/").data.isPrefixOf (root ++ "/" ++ p).data = true := by
    rw [String.data_append (root ++ "/") p]
    exact isPrefixOf_append_self _ _
  rw [hpre]
  simp

/-- Environment with an existing file and a cleanly exiting converter. -/
def envC1 : Env := ⟨"/root", fun _ => true, fun _ _ => ProcOutcome.completed 0 ""⟩

/-- Environment with no file present. -/
def envC10 : Env := ⟨"/root", fun _ => false, fun _ _ => ProcOutcome.completed 0 ""⟩

/-- Environment with an existing file and a cleanly exiting converter. -/
def envC4 : Env := ⟨"/root", fun _ => true, fun _ _ => ProcOutcome.completed 0 ""⟩

/-- Environment whose converter exits 1 with stderr `boom`. -/
def envC5 : Env := ⟨"/r", fun _ => true, fun _ _ => ProcOutcome.completed 1 "boom"⟩

/-- Environment whose converter call times out. -/
def envC6 : Env := ⟨"/r", fun _ => true, fun _ _ => ProcOutcome.timedOut⟩

/-- C1: a request whose sourcePath has a basename beginning with a dash, or
any separator-split component beginning with a dash, is answered with HTTP
400 and no external process is ever invoked, whatever the direction, root
directory, filesystem and process behavior. -/
theorem c1_dash_paths_rejected_no_spawn (sp : String) (d : Option String) (env : Env)
    (h : startsWithDash (pyBasename sp.data) = true ∨
      (pySplitSep sp.data).any startsWithDash = true) :
    (ConvertHandler.post (BodyResult.parsed (some sp) d) env).status = 400 ∧
    (ConvertHandler.post (BodyResult.parsed (some sp) d) env).spawns = [] := by
  have hany : (pySplitSep sp.data).any startsWithDash = true := by
    rcases h with h | h
    · exact basename_dash_subsumed sp.data h
    · exact h
  have hne : sp ≠ "" := by
    intro he
    rw [he] at hany
    exact absurd hany (by decide)
  have hv : (_validate_path sp).fst = false := by
    unfold _validate_path
    rw [if_neg hne]
    by_cases h1 : startsWithDash (pyBasename sp.data) = true
    · rw [if_pos h1]
    · rw [if_neg h1, if_pos hany]
  simp only [ConvertHandler.post]
  by_cases hd : d = some "to_marimo" ∨ d = some "from_marimo"
  · rw [if_neg hne, if_neg (not_not_intro hd), if_pos hv]
    exact ⟨rfl, rfl⟩
  · rw [if_neg hne, if_pos hd]
    exact ⟨rfl, rfl⟩

/-- Witness for C1 at a concrete dash-prefixed path. -/
theorem c1_dash_paths_rejected_no_spawn_witness :
    (startsWithDash (pyBasename ("--evil.ipynb" : String).data) = true ∨
      (pySplitSep ("--evil.ipynb" : String).data).any startsWithDash = true) ∧
    (ConvertHandler.post (BodyResult.parsed (some "--evil.ipynb") (some "to_marimo")) envC1).status = 400 ∧
    (ConvertHandler.post (BodyResult.parsed (some "--evil.ipynb") (some "to_marimo")) envC1).spawns = [] :=
  ⟨Or.inl (by decide),
   (c1_dash_paths_rejected_no_spawn "--evil.ipynb" (some "to_marimo") envC1 (Or.inl (by decide))).1,
   (c1_dash_paths_rejected_no_spawn "--evil.ipynb" (some "to_marimo") envC1 (Or.inl (by decide))).2⟩

/-- C8: the output-path derivation is a pure, invertible string transform on
well-formed inputs; the two derivations undo each other. -/
theorem c8_output_derivation_invertible (X : String) :
    deriveToMarimoOutput (X ++ ".ipynb") = X ++ ".mo.py" ∧
    deriveFromMarimoOutput (X ++ ".mo.py") = X ++ ".ipynb" ∧
    deriveFromMarimoOutput (deriveToMarimoOutput (X ++ ".ipynb")) = X ++ ".ipynb" ∧
    deriveToMarimoOutput (deriveFromMarimoOutput (X ++ ".mo.py")) = X ++ ".mo.py" := by
  refine ⟨deriveToMarimoOutput_append X, deriveFromMarimoOutput_append X, ?_, ?_⟩
  · rw [deriveToMarimoOutput_append, deriveFromMarimoOutput_append]
  · rw [deriveFromMarimoOutput_append, deriveToMarimoOutput_append]

/-- C10: every request answered with HTTP 400 spawned no external process;
the handler itself touches the filesystem only through the `isfile` oracle,
so such a request leaves the filesystem unchanged. -/
theorem c10_http400_leaves_filesystem_unchanged (body : BodyResult) (env : Env)
    (h : (ConvertHandler.post body env).status = 400) :
    (ConvertHandler.post body env).spawns = [] := by
  rcases post_spawns_cases body env with hc | hc
  · exact hc
  · exact absurd h hc.1

/-- Witness for C10 at a malformed body. -/
theorem c10_http400_leaves_filesystem_unchanged_witness :
    (ConvertHandler.post BodyResult.jsonDecodeError envC10).status = 400 ∧
    (ConvertHandler.post BodyResult.jsonDecodeError envC10).spawns = [] :=
  ⟨rfl, c10_http400_leaves_filesystem_unchanged BodyResult.jsonDecodeError envC10 rfl⟩

/-- C4: when the guards pass and the external process exits 0, the handler
answers 200 with `success` true and `outputPath` equal to the request's
root-relative source path with its extension swapped, in both directions. -/
theorem c4_success_maps_to_200_with_swapped_path (X st : String) (env : Env) :
    ((_validate_path (X ++ ".ipynb")).fst = true →
      env.isfile (posixJoin env.rootDir (X ++ ".ipynb")) = true →
      (∀ argv t, env.run argv t = ProcOutcome.completed 0 st) →
      (ConvertHandler.post (BodyResult.parsed (some (X ++ ".ipynb")) (some "to_marimo")) env).status = 200 ∧
      (ConvertHandler.post (BodyResult.parsed (some (X ++ ".ipynb")) (some "to_marimo")) env).success = true ∧
      (ConvertHandler.post (BodyResult.parsed (some (X ++ ".ipynb")) (some "to_marimo")) env).outputPath =
        some (X ++ ".mo.py")) ∧
    ((_validate_path (X ++ ".mo.py")).fst = true →
      env.isfile (posixJoin env.rootDir (X ++ ".mo.py")) = true →
      (∀ argv t, env.run argv t = ProcOutcome.completed 0 st) →
      (ConvertHandler.post (BodyResult.parsed (some (X ++ ".mo.py")) (some "from_marimo")) env).status = 200 ∧
      (ConvertHandler.post (BodyResult.parsed (some (X ++ ".mo.py")) (some "from_marimo")) env).success = true ∧
      (ConvertHandler.post (BodyResult.parsed (some (X ++ ".mo.py")) (some "from_marimo")) env).outputPath =
        some (X ++ ".ipynb")) := by
  constructor
  · intro hv hf hrun
    rw [post_to_marimo_branch _ env hv hf (pyEndsWith_append X ".ipynb")]
    have hc : (_convert_to_marimo (posixJoin env.rootDir (X ++ ".ipynb"))
        (posixJoin env.rootDir (deriveToMarimoOutput (X ++ ".ipynb"))) env.run).fst = (true, none) := by
      rw [convert_to_marimo_completed _ _ env.run 0 st hrun]
      simp
    rw [mkConvertResponse_success _ _ hc]
    refine ⟨rfl, rfl, ?_⟩
    show some (deriveToMarimoOutput (X ++ ".ipynb")) = some (X ++ ".mo.py")
    rw [deriveToMarimoOutput_append]
  · intro hv hf hrun
    rw [post_from_marimo_branch _ env hv hf (pyEndsWith_append X ".mo.py")]
    have hc : (_convert_from_marimo (posixJoin env.rootDir (X ++ ".mo.py"))
        (posixJoin env.rootDir (deriveFromMarimoOutput (X ++ ".mo.py"))) env.run).fst = (true, none) := by
      rw [convert_from_marimo_completed _ _ env.run 0 st hrun]
      simp
    rw [mkConvertResponse_success _ _ hc]
    refine ⟨rfl, rfl, ?_⟩
    show some (deriveFromMarimoOutput (X ++ ".mo.py")) = some (X ++ ".ipynb")
    rw [deriveFromMarimoOutput_append]

/-- Witness for C4 at a concrete notebook path. -/
theorem c4_success_maps_to_200_with_swapped_path_witness :
    (ConvertHandler.post (BodyResult.parsed (some ("nb" ++ ".ipynb")) (some "to_marimo")) envC4).status = 200 ∧
    (ConvertHandler.post (BodyResult.parsed (some ("nb" ++ ".ipynb")) (some "to_marimo")) envC4).success = true ∧
    (ConvertHandler.post (BodyResult.parsed (some ("nb" ++ ".ipynb")) (some "to_marimo")) envC4).outputPath =
      some ("nb" ++ ".mo.py") :=
  (c4_success_maps_to_200_with_swapped_path "nb" "" envC4).1 (by decide) (by decide) (fun _ _ => rfl)

/-- C5 counterexample: with stderr `boom` and exit code 1 the response error
is the prefixed message, which contains but is not equal to the trimmed
stderr. -/
theorem c5_counterexample_error_is_prefixed :
    (ConvertHandler.post (BodyResult.parsed (some "nb.ipynb") (some "to_marimo")) envC5).status = 500 ∧
    (ConvertHandler.post (BodyResult.parsed (some "nb.ipynb") (some "to_marimo")) envC5).error =
      some "Conversion failed: boom" ∧
    ¬((ConvertHandler.post (BodyResult.parsed (some "nb.ipynb") (some "to_marimo")) envC5).error =
      some (pyStrip "boom")) := by decide

/-- C5 amended: a nonzero exit yields HTTP 500 whose error message is the
direction-specific prefix followed by the trimmed stderr, or by the generic
fallback when stderr is empty. -/
theorem c5_amended_stderr_mapping (sp st : String) (rc : Int) (env : Env)
    (hv : (_validate_path sp).fst = true)
    (hf : env.isfile (posixJoin env.rootDir sp) = true)
    (hrun : ∀ argv t, env.run argv t = ProcOutcome.completed rc st)
    (hrc : rc ≠ 0) :
    (pyEndsWith sp ".ipynb" = true →
      (ConvertHandler.post (BodyResult.parsed (some sp) (some "to_marimo")) env).status = 500 ∧
      (ConvertHandler.post (BodyResult.parsed (some sp) (some "to_marimo")) env).error =
        some ("Conversion failed: " ++
          (if st ≠ "" then pyStrip st else "Unknown conversion error"))) ∧
    (pyEndsWith sp ".mo.py" = true →
      (ConvertHandler.post (BodyResult.parsed (some sp) (some "from_marimo")) env).status = 500 ∧
      (ConvertHandler.post (BodyResult.parsed (some sp) (some "from_marimo")) env).error =
        some ("Export failed: " ++
          (if st ≠ "" then pyStrip st else "Unknown export error"))) := by
  constructor
  · intro he
    rw [post_to_marimo_branch sp env hv hf he]
    have hc := convert_to_marimo_completed (posixJoin env.rootDir sp)
      (posixJoin env.rootDir (deriveToMarimoOutput sp)) env.run rc st hrun
    rw [if_pos hrc] at hc
    rw [mkConvertResponse_failure _ _ _ hc]
    exact ⟨rfl, rfl⟩
  · intro he
    rw [post_from_marimo_branch sp env hv hf he]
    have hc := convert_from_marimo_completed (posixJoin env.rootDir sp)
      (posixJoin env.rootDir (deriveFromMarimoOutput sp)) env.run rc st hrun
    rw [if_pos hrc] at hc
    rw [mkConvertResponse_failure _ _ _ hc]
    exact ⟨rfl, rfl⟩

/-- Witness for the amended C5 at stderr `boom`. -/
theorem c5_amended_stderr_mapping_witness :
    (ConvertHandler.post (BodyResult.parsed (some "nb.ipynb") (some "to_marimo")) envC5).status = 500 ∧
    (ConvertHandler.post (BodyResult.parsed (some "nb.ipynb") (some "to_marimo")) envC5).error =
      some "Conversion failed: boom" := by
  have h := (c5_amended_stderr_mapping "nb.ipynb" "boom" 1 envC5 (by decide) (by decide)
    (fun _ _ => rfl) (by decide)).1 (by decide)
  refine ⟨h.1, ?_⟩
  rw [h.2]
  decide

/-- C6: every recorded external invocation carries the 30-second timeout,
and an expired timeout is mapped to HTTP 500 with the fixed direction-specific
message stating the operation timed out after 30 seconds. -/
theorem c6_thirty_second_timeout (body : BodyResult) (env : Env) :
    (∀ s ∈ (ConvertHandler.post body env).spawns, s.timeoutSeconds = 30) ∧
    (∀ sp : String,
      (_validate_path sp).fst = true →
      env.isfile (posixJoin env.rootDir sp) = true →
      (∀ argv t, env.run argv t = ProcOutcome.timedOut) →
      ((pyEndsWith sp ".ipynb" = true →
        (ConvertHandler.post (BodyResult.parsed (some sp) (some "to_marimo")) env).status = 500 ∧
        (ConvertHandler.post (BodyResult.parsed (some sp) (some "to_marimo")) env).error =
          some "Conversion timed out after 30 seconds") ∧
       (pyEndsWith sp ".mo.py" = true →
        (ConvertHandler.post (BodyResult.parsed (some sp) (some "from_marimo")) env).status = 500 ∧
        (ConvertHandler.post (BodyResult.parsed (some sp) (some "from_marimo")) env).error =
          some "Export timed out after 30 seconds"))) := by
  constructor
  · intro s hs
    rcases post_spawns_cases body env with hc | hc
    · rw [hc] at hs
      simp at hs
    · exact hc.2 s hs
  · intro sp hv hf hrun
    constructor
    · intro he
      rw [post_to_marimo_branch sp env hv hf he]
      rw [mkConvertResponse_failure _ _ _ (convert_to_marimo_timeout _ _ env.run hrun)]
      exact ⟨rfl, rfl⟩
    · intro he
      rw [post_from_marimo_branch sp env hv hf he]
      rw [mkConvertResponse_failure _ _ _ (convert_from_marimo_timeout _ _ env.run hrun)]
      exact ⟨rfl, rfl⟩

/-- Witness for C6 at a concrete timed-out conversion. -/
theorem c6_thirty_second_timeout_witness :
    (⟨["marimo", "convert", "/r/nb.ipynb", "-o", "/r/nb.mo.py"], 30⟩ : SpawnRecord).timeoutSeconds = 30 ∧
    (ConvertHandler.post (BodyResult.parsed (some "nb.ipynb") (some "to_marimo")) envC6).status = 500 ∧
    (ConvertHandler.post (BodyResult.parsed (some "nb.ipynb") (some "to_marimo")) envC6).error =
      some "Conversion timed out after 30 seconds" := by
  have ha := (c6_thirty_second_timeout (BodyResult.parsed (some "nb.ipynb") (some "to_marimo")) envC6).1
    ⟨["marimo", "convert", "/r/nb.ipynb", "-o", "/r/nb.mo.py"], 30⟩ (by decide)
  have hb := ((c6_thirty_second_timeout (BodyResult.parsed (some "nb.ipynb") (some "to_marimo")) envC6).2
    "nb.ipynb" (by decide) (by decide) (fun _ _ => rfl)).1 (by decide)
  exact ⟨ha, hb.1, hb.2⟩

/-- Environment with no file present, used for the not-found branch. -/
def envC3 : Env := ⟨"/root", fun _ => false, fun _ _ => ProcOutcome.completed 0 ""⟩

/-- Environment with every file present, used for the extension branch. -/
def envC3b : Env := ⟨"/root", fun _ => true, fun _ _ => ProcOutcome.completed 0 ""⟩

/-- C3 counterexample: a `to_marimo` request whose source path does not end
in `.ipynb` and whose resolved path has no file gets the not-found message,
not the extension-mismatch message, so the existence check runs first. -/
theorem c3_counterexample_existence_checked_first :
    (ConvertHandler.post (BodyResult.parsed (some "foo.txt") (some "to_marimo")) envC3).status = 400 ∧
    (ConvertHandler.post (BodyResult.parsed (some "foo.txt") (some "to_marimo")) envC3).error =
      some "Source file not found: foo.txt" ∧
    ¬((ConvertHandler.post (BodyResult.parsed (some "foo.txt") (some "to_marimo")) envC3).error =
      some "Source file must be a .ipynb file for to_marimo conversion") := by decide

/-- C3 amended: the existence check precedes the extension check; a missing
file yields the not-found 400 in either direction, and the direction-specific
extension-mismatch 400 is produced exactly when the file exists and the
extension does not match the direction. -/
theorem c3_amended_existence_before_extension (sp : String) (env : Env)
    (hv : (_validate_path sp).fst = true) :
    (env.isfile (posixJoin env.rootDir sp) = false →
      ∀ d : Option String, d = some "to_marimo" ∨ d = some "from_marimo" →
        (ConvertHandler.post (BodyResult.parsed (some sp) d) env).status = 400 ∧
        (ConvertHandler.post (BodyResult.parsed (some sp) d) env).error =
          some ("Source file not found: " ++ sp)) ∧
    (env.isfile (posixJoin env.rootDir sp) = true →
      pyEndsWith sp ".ipynb" = false →
        (ConvertHandler.post (BodyResult.parsed (some sp) (some "to_marimo")) env).status = 400 ∧
        (ConvertHandler.post (BodyResult.parsed (some sp) (some "to_marimo")) env).error =
          some "Source file must be a .ipynb file for to_marimo conversion") ∧
    (env.isfile (posixJoin env.rootDir sp) = true →
      pyEndsWith sp ".mo.py" = false →
        (ConvertHandler.post (BodyResult.parsed (some sp) (some "from_marimo")) env).status = 400 ∧
        (ConvertHandler.post (BodyResult.parsed (some sp) (some "from_marimo")) env).error =
          some "Source file must be a .mo.py file for from_marimo conversion") := by
  have hne : sp ≠ "" := validate_true_ne_empty sp hv
  refine ⟨?_, ?_, ?_⟩
  · intro hnf d hd
    simp only [ConvertHandler.post]
    rw [if_neg hne, if_neg (not_not_intro hd), if_neg (by simp [hv]), if_pos hnf]
    exact ⟨rfl, rfl⟩
  · intro hf he
    simp [ConvertHandler.post, hne, hv, hf, he]
  · intro hf he
    have hd : ¬((some "from_marimo" : Option String) = some "to_marimo") := by decide
    simp [ConvertHandler.post, hne, hv, hf, he, hd]

/-- Witness for the amended C3 at a concrete non-notebook path. -/
theorem c3_amended_existence_before_extension_witness :
    (ConvertHandler.post (BodyResult.parsed (some "bar.txt") (some "to_marimo")) envC3).status = 400 ∧
    (ConvertHandler.post (BodyResult.parsed (some "bar.txt") (some "to_marimo")) envC3).error =
      some "Source file not found: bar.txt" ∧
    (ConvertHandler.post (BodyResult.parsed (some "bar.txt") (some "to_marimo")) envC3b).status = 400 ∧
    (ConvertHandler.post (BodyResult.parsed (some "bar.txt") (some "to_marimo")) envC3b).error =
      some "Source file must be a .ipynb file for to_marimo conversion" := by
  have h1 := (c3_amended_existence_before_extension "bar.txt" envC3 (by decide)).1 rfl
    (some "to_marimo") (Or.inl rfl)
  have h2 := (c3_amended_existence_before_extension "bar.txt" envC3b (by decide)).2.1 rfl (by decide)
  refine ⟨h1.1, ?_, h2.1, h2.2⟩
  rw [h1.2]
  decide

/-- Environment rooted at a user directory, every file present. -/
def envC2 : Env := ⟨"/home/user", fun _ => true, fun _ _ => ProcOutcome.completed 0 ""⟩

/-- C2 counterexample: an absolute source path passes validation, yet
`os.path.join` discards the root, the request is served, and neither resolved
path is contained under the root directory. -/
theorem c2_counterexample_absolute_path_escapes :
    (_validate_path "/etc/secrets.ipynb").fst = true ∧
    (ConvertHandler.post (BodyResult.parsed (some "/etc/secrets.ipynb") (some "to_marimo")) envC2).status = 200 ∧
    (ConvertHandler.post (BodyResult.parsed (some "/etc/secrets.ipynb") (some "to_marimo")) envC2).spawns =
      [⟨["marimo", "convert", "/etc/secrets.ipynb", "-o", "/etc/secrets.mo.py"], 30⟩] ∧
    containedUnder "/home/user" (posixJoin "/home/user" "/etc/secrets.ipynb") = false ∧
    containedUnder "/home/user"
      (posixJoin "/home/user" (deriveToMarimoOutput "/etc/secrets.ipynb")) = false := by decide

/-- C2 amended: for a validated sourcePath that does not begin with the path
separator, and a nonempty root directory not ending with the separator, the
resolved source path and both candidate resolved output paths are contained
under the root. Traversal via dot-dot components is not prevented and is
delegated to the host, per the validation contract. -/
theorem c2_amended_relative_paths_contained (sp : String) (env : Env)
    (hv : (_validate_path sp).fst = true)
    (hrel : startsWithSlash sp.data = false)
    (hroot1 : env.rootDir ≠ "")
    (hroot2 : endsWithSlash env.rootDir.data = false) :
    containedUnder env.rootDir (posixJoin env.rootDir sp) = true ∧
    containedUnder env.rootDir (posixJoin env.rootDir (deriveToMarimoOutput sp)) = true ∧
    containedUnder env.rootDir (posixJoin env.rootDir (deriveFromMarimoOutput sp)) = true :=
  ⟨posixJoin_contained env.rootDir sp hroot1 hroot2 hrel,
   posixJoin_contained env.rootDir _ hroot1 hroot2 (deriveToMarimoOutput_relative sp hrel),
   posixJoin_contained env.rootDir _ hroot1 hroot2 (deriveFromMarimoOutput_relative sp hrel)⟩

/-- Witness for the amended C2 at a concrete relative path. -/
theorem c2_amended_relative_paths_contained_witness :
    containedUnder envC2.rootDir (posixJoin envC2.rootDir "nb.ipynb") = true ∧
    containedUnder envC2.rootDir (posixJoin envC2.rootDir (deriveToMarimoOutput "nb.ipynb")) = true ∧
    containedUnder envC2.rootDir (posixJoin envC2.rootDir (deriveFromMarimoOutput "nb.ipynb")) = true :=
  c2_amended_relative_paths_contained "nb.ipynb" envC2 (by decide) (by decide) (by decide) (by decide)

/-- Environment for body-shape cases. -/
def envC7 : Env := ⟨"/root", fun _ => false, fun _ _ => ProcOutcome.completed 0 ""⟩

/-- C7 counterexample: a request whose body parses to `None` is answered
with HTTP 500, through the generic exception handler, not 400. -/
theorem c7_counterexample_none_body_yields_500 :
    (ConvertHandler.post BodyResult.parsedNone envC7).status = 500 ∧
    ¬((ConvertHandler.post BodyResult.parsedNone envC7).status = 400) := by decide

/-- C7 amended: a malformed body raising `json.JSONDecodeError` is answered
with HTTP 400 and the fixed message, spawning nothing; an absent body parsed
as `None` is answered with HTTP 500 via the generic exception handler. -/
theorem c7_amended_parse_error_mapping (env : Env) :
    (ConvertHandler.post BodyResult.jsonDecodeError env).status = 400 ∧
    (ConvertHandler.post BodyResult.jsonDecodeError env).error = some "Invalid JSON body" ∧
    (ConvertHandler.post BodyResult.jsonDecodeError env).spawns = [] ∧
    (ConvertHandler.post BodyResult.parsedNone env).status = 500 :=
  ⟨rfl, rfl, rfl, rfl⟩
